import Mathlib

/-!
Shallow embedding of src/utils/clipboard_manager.py (class ClipboardManager
together with the module-level singleton helpers) and theorems checking the
specification claims about it.

External effects are made explicit: an Env value records which backend
libraries imported successfully at construction time (the probing in
__init__) together with fault-injection flags saying which external call
raises when invoked; a ClipState value records what the OS clipboard holds
and whether this process currently holds it open; every operation returns,
besides its Python return value, the successor ClipState and the list of
external calls it actually issued.
-/

namespace ClipboardManager

/-- Availability of the backend libraries as probed once in __init__, plus
fault-injection flags describing which external call raises when invoked.
The three availability flags are immutable after construction: no method of
the source ever writes them again. -/
structure Env where
  hasPyperclip : Bool
  hasWin32 : Bool
  hasTkinter : Bool
  pyperclipCopyFails : Bool
  pyperclipPasteFails : Bool
  win32OpenFails : Bool
  win32EmptyFails : Bool
  win32SetTextFails : Bool
  win32GetDataFails : Bool
  win32SetDibFails : Bool
  win32CloseFails : Bool
  tkFails : Bool
  deriving DecidableEq

/-- State of the OS clipboard as observed by this embedding: whether this
process currently holds the clipboard open, and the text content (none when
the clipboard holds no text, matching a clipboard that is empty or holds
only non-text data). -/
structure ClipState where
  opened : Bool
  content : Option String
  deriving DecidableEq

/-- External calls an operation can issue, tagged by the library they go
through: pyperclip, the win32 native clipboard API, or the tkinter root. -/
inductive ApiCall where
  | pyperclipCopy (t : String)
  | pyperclipPaste
  | openClipboard
  | emptyClipboard
  | setTextData (t : String)
  | getTextData
  | queryFormat
  | setDib (payload : List ℕ)
  | closeClipboard
  | tkClear
  | tkAppend (t : String)
  | tkUpdate
  | tkGet
  | tkDestroy
  deriving DecidableEq

/-- The three interchangeable text backends. -/
inductive Backend where
  | pyperclip
  | win32
  | tkinter
  deriving DecidableEq

/-- Library each external call belongs to. -/
def call_backend : ApiCall → Backend
  | ApiCall.pyperclipCopy _ => Backend.pyperclip
  | ApiCall.pyperclipPaste => Backend.pyperclip
  | ApiCall.tkClear => Backend.tkinter
  | ApiCall.tkAppend _ => Backend.tkinter
  | ApiCall.tkUpdate => Backend.tkinter
  | ApiCall.tkGet => Backend.tkinter
  | ApiCall.tkDestroy => Backend.tkinter
  | _ => Backend.win32

/-- Argument of save_text as Python sees it: either a str or a value of any
other runtime type. -/
inductive PyVal where
  | str (t : String)
  | nonStr
  deriving DecidableEq

/-- Result of an effectful boolean operation: the Python return value, the
successor clipboard state, and the external calls issued. -/
structure STResult where
  ok : Bool
  state : ClipState
  calls : List ApiCall
  deriving DecidableEq

/-- Priority 1 branch of save_text: pyperclip.copy sets the clipboard text;
a raise inside it is caught by the single try/except of save_text. -/
def save_text_pyperclip (env : Env) (st : ClipState) (t : String) : STResult :=
  if env.pyperclipCopyFails then ⟨false, st, [ApiCall.pyperclipCopy t]⟩
  else ⟨true, { st with content := some t }, [ApiCall.pyperclipCopy t]⟩

/-- Priority 2 branch of save_text: OpenClipboard, EmptyClipboard,
SetClipboardText, CloseClipboard in sequence. A raise at any point is
caught by the try/except of save_text, which returns false WITHOUT closing
the clipboard, so the opened flag stays set on the failure paths that come
after a successful OpenClipboard. -/
def save_text_win32 (env : Env) (st : ClipState) (t : String) : STResult :=
  if env.win32OpenFails then
    ⟨false, st, [ApiCall.openClipboard]⟩
  else if env.win32EmptyFails then
    ⟨false, { st with opened := true },
      [ApiCall.openClipboard, ApiCall.emptyClipboard]⟩
  else if env.win32SetTextFails then
    ⟨false, { opened := true, content := none },
      [ApiCall.openClipboard, ApiCall.emptyClipboard, ApiCall.setTextData t]⟩
  else if env.win32CloseFails then
    ⟨false, { opened := true, content := some t },
      [ApiCall.openClipboard, ApiCall.emptyClipboard, ApiCall.setTextData t,
        ApiCall.closeClipboard]⟩
  else
    ⟨true, { opened := false, content := some t },
      [ApiCall.openClipboard, ApiCall.emptyClipboard, ApiCall.setTextData t,
        ApiCall.closeClipboard]⟩

/-- Priority 3 branch of save_text: clipboard_clear, clipboard_append,
update on the hidden tkinter root; a raise is caught by save_text. The
fault is modelled at the first tkinter call. -/
def save_text_tkinter (env : Env) (st : ClipState) (t : String) : STResult :=
  if env.tkFails then ⟨false, st, [ApiCall.tkClear]⟩
  else ⟨true, { st with content := some t },
    [ApiCall.tkClear, ApiCall.tkAppend t, ApiCall.tkUpdate]⟩

/-- ClipboardManager.save_text: a non-str argument is rejected before any
backend call; otherwise the fixed chain pyperclip, then win32, then tkinter
is walked and only the first available backend is invoked, the whole chain
sitting inside one try/except that converts any raise into false without
trying a lower branch. -/
def save_text (env : Env) (st : ClipState) (v : PyVal) : STResult :=
  match v with
  | PyVal.nonStr => ⟨false, st, []⟩
  | PyVal.str t =>
    if env.hasPyperclip then save_text_pyperclip env st t
    else if env.hasWin32 then save_text_win32 env st t
    else if env.hasTkinter then save_text_tkinter env st t
    else ⟨false, st, []⟩

/-- Text backend save_text and get_text select, as a function of the
availability flags alone: the first available one in the fixed order
pyperclip, win32, tkinter. -/
def select_text_backend (env : Env) : Option Backend :=
  if env.hasPyperclip then some Backend.pyperclip
  else if env.hasWin32 then some Backend.win32
  else if env.hasTkinter then some Backend.tkinter
  else none

/-- Whether the selected text backend raises somewhere inside the save_text
sequence under the fault flags of env; true as well when no backend is
available at all. -/
def chosen_fails (env : Env) : Bool :=
  match select_text_backend env with
  | some Backend.pyperclip => env.pyperclipCopyFails
  | some Backend.win32 =>
    env.win32OpenFails || env.win32EmptyFails || env.win32SetTextFails
      || env.win32CloseFails
  | some Backend.tkinter => env.tkFails
  | none => true

/-- ClipboardManager.get_text: pyperclip.paste when available (pyperclip
returns a text unconditionally, the empty text when the clipboard holds no
text); else the win32 path opens the clipboard, closes it in a finally
block, returns str(data) if data else None when the unicode-text format is
present, and otherwise falls through to the tkinter branch; tkinter
clipboard_get returns the text or raises, the raise being mapped to None;
with no backend at all the result is None. Any raise is caught by the outer
try/except and yields None. -/
def get_text (env : Env) (st : ClipState) :
    Option String × ClipState × List ApiCall :=
  if env.hasPyperclip then
    if env.pyperclipPasteFails then (none, st, [ApiCall.pyperclipPaste])
    else (some (st.content.getD ""), st, [ApiCall.pyperclipPaste])
  else if env.hasWin32 then
    if env.win32OpenFails then (none, st, [ApiCall.openClipboard])
    else
      match st.content with
      | some d =>
        if env.win32GetDataFails then
          (none, { st with opened := false },
            [ApiCall.openClipboard, ApiCall.queryFormat, ApiCall.getTextData,
              ApiCall.closeClipboard])
        else
          (if d = "" then none else some d, { st with opened := false },
            [ApiCall.openClipboard, ApiCall.queryFormat, ApiCall.getTextData,
              ApiCall.closeClipboard])
      | none =>
        if env.hasTkinter then
          (none, { st with opened := false },
            [ApiCall.openClipboard, ApiCall.queryFormat,
              ApiCall.closeClipboard, ApiCall.tkGet])
        else
          (none, { st with opened := false },
            [ApiCall.openClipboard, ApiCall.queryFormat,
              ApiCall.closeClipboard])
  else if env.hasTkinter then
    (st.content, st, [ApiCall.tkGet])
  else (none, st, [])

/-- ClipboardManager.clear: when win32 is available, OpenClipboard,
EmptyClipboard, CloseClipboard inside one try whose except returns false
without closing; otherwise it falls back to save_text with the empty
string. -/
def clear (env : Env) (st : ClipState) : STResult :=
  if env.hasWin32 then
    if env.win32OpenFails then ⟨false, st, [ApiCall.openClipboard]⟩
    else if env.win32EmptyFails then
      ⟨false, { st with opened := true },
        [ApiCall.openClipboard, ApiCall.emptyClipboard]⟩
    else if env.win32CloseFails then
      ⟨false, { opened := true, content := none },
        [ApiCall.openClipboard, ApiCall.emptyClipboard, ApiCall.closeClipboard]⟩
    else
      ⟨true, { opened := false, content := none },
        [ApiCall.openClipboard, ApiCall.emptyClipboard, ApiCall.closeClipboard]⟩
  else save_text env st (PyVal.str "")

/-- Sample value converted the way np.clip(x, 0, 255).astype(np.uint8)
converts it: clamp into the inclusive range [0, 255] first, then truncate
toward zero. Samples are rationals; in the remaining branch x lies strictly
between 0 and 255 so its numerator is positive and the Nat division
x.num.toNat / x.den is exactly truncation toward zero. -/
def np_clip_astype_uint8 (x : ℚ) : ℕ :=
  if x ≤ 0 then 0
  else if 255 ≤ x then 255
  else x.num.toNat / x.den

/-- Raw numpy pixel buffer as _convert_to_pil receives it: whether the
dtype is np.uint8, and the flat list of sample values as rationals. -/
structure NpArray where
  dtypeIsUint8 : Bool
  data : List ℚ
  deriving DecidableEq

/-- Comparison np_version greater-or-equal (2, 0) as the source computes it
on the first two components of numpy.__version__; since the second
component of the right-hand tuple is 0, the lexicographic comparison holds
exactly when the major version is at least 2. -/
def np_version_ge_2_0 (v : ℕ × ℕ) : Bool :=
  decide (2 ≤ v.1)

/-- Sample values handed to Image.fromarray by the ndarray branch of
_convert_to_pil: under numpy 2.x the array is passed through unchanged;
under numpy 1.x a uint8 array is passed through and any other dtype is
first clipped to [0, 255] and cast to np.uint8. -/
def ndarray_to_samples (v : ℕ × ℕ) (a : NpArray) : List ℚ :=
  if np_version_ge_2_0 v then a.data
  else if a.dtypeIsUint8 then a.data
  else a.data.map (fun x => (np_clip_astype_uint8 x : ℚ))

/-- In-memory RGB image: width, height and rows of (r, g, b) byte triples.
The source converts any PIL image of another mode to RGB before encoding,
so only RGB images are represented here. -/
structure PILImage where
  width : ℕ
  height : ℕ
  pixels : List (List (ℕ × ℕ × ℕ))
  deriving DecidableEq

/-- External image environment: the installed numpy version and the
behavior of the external decoders Image.open (on a path and on a byte
stream) and Image.fromarray, each returning none when the library raises,
which _convert_to_pil catches into None. -/
structure ImgEnv where
  npVersion : ℕ × ℕ
  openPath : String → Option PILImage
  openBytes : List ℕ → Option PILImage
  fromarray : List ℚ → Option PILImage

/-- Argument of save_image as Python sees it: one of the four supported
runtime types, or a value of any other type. -/
inductive ImageInput where
  | pil (img : PILImage)
  | path (p : String)
  | bytes (b : List ℕ)
  | ndarray (a : NpArray)
  | other

/-- ClipboardManager._convert_to_pil: dispatch on the runtime type of the
input; an unsupported type or a decoder raise yields None. -/
def convert_to_pil (e : ImgEnv) : ImageInput → Option PILImage
  | ImageInput.pil img => some img
  | ImageInput.path p => e.openPath p
  | ImageInput.bytes b => e.openBytes b
  | ImageInput.ndarray a => e.fromarray (ndarray_to_samples e.npVersion a)
  | ImageInput.other => none

/-- Little-endian four-byte encoding of n. -/
def le32 (n : ℕ) : List ℕ :=
  [n % 256, n / 256 % 256, n / 256 / 256 % 256, n / 256 / 256 / 256 % 256]

/-- Little-endian two-byte encoding of n. -/
def le16 (n : ℕ) : List ℕ := [n % 256, n / 256 % 256]

/-- Bytes per stored bitmap row: three bytes per pixel, padded up to the
next multiple of four. -/
def bmp_row_size (w : ℕ) : ℕ := (w * 3 + 3) / 4 * 4

/-- Total byte size of an uncompressed 24-bit BMP file: a 14-byte file
header, a 40-byte info header, then the padded pixel rows. -/
def bmp_file_size (w h : ℕ) : ℕ := 54 + bmp_row_size w * h

/-- Serialization of one pixel row: blue, green, red per pixel, padded with
zero bytes to the aligned row size. -/
def bmp_encode_row (w : ℕ) (row : List (ℕ × ℕ × ℕ)) : List ℕ :=
  (row.map (fun p => [p.2.2 % 256, p.2.1 % 256, p.1 % 256])).flatten
    ++ List.replicate (bmp_row_size w - w * 3) 0

/-- The 14-byte BMP file-level header: magic, file size, reserved fields,
offset of the pixel data. -/
def bmp_file_header (w h : ℕ) : List ℕ :=
  [66, 77] ++ le32 (bmp_file_size w h) ++ [0, 0, 0, 0] ++ le32 54

/-- The 40-byte BITMAPINFOHEADER of an uncompressed 24-bit image: header
size, width, height, one plane, 24 bits per pixel, no compression, pixel
data size, resolutions and palette fields zero. -/
def bmp_info_header (w h : ℕ) : List ℕ :=
  le32 40 ++ le32 w ++ le32 h ++ le16 1 ++ le16 24 ++ le32 0
    ++ le32 (bmp_row_size w * h) ++ le32 0 ++ le32 0 ++ le32 0 ++ le32 0

/-- Uncompressed 24-bit BMP serialization of an RGB image as image.save
with format BMP produces it: file header, info header, then the pixel rows
bottom-up, each in blue-green-red byte order with four-byte row padding. -/
def bmp_encode (img : PILImage) : List ℕ :=
  bmp_file_header img.width img.height
    ++ bmp_info_header img.width img.height
    ++ (img.pixels.reverse.map (bmp_encode_row img.width)).flatten

/-- The CF_DIB payload _save_image_windows builds: the BMP bytes with the
leading 14-byte file header stripped, bmp_data[14:] in the source. -/
def dib_data (img : PILImage) : List ℕ :=
  (bmp_encode img).drop 14

/-- ClipboardManager._save_image_windows: guard on win32 availability
before any OS call, encode the image to BMP in memory, strip the 14-byte
file header, then OpenClipboard, EmptyClipboard, SetClipboardData with
CF_DIB, CloseClipboard; the except block of this method attempts a
best-effort CloseClipboard, itself wrapped in a swallowed try, before
returning false, so every path that issued an OpenClipboard also issues a
CloseClipboard. The recovery close is modelled as succeeding. -/
def save_image_windows (env : Env) (st : ClipState) (img : PILImage) :
    STResult :=
  if env.hasWin32 then
    if env.win32OpenFails then
      ⟨false, { st with opened := false },
        [ApiCall.openClipboard, ApiCall.closeClipboard]⟩
    else if env.win32EmptyFails then
      ⟨false, { st with opened := false },
        [ApiCall.openClipboard, ApiCall.emptyClipboard, ApiCall.closeClipboard]⟩
    else if env.win32SetDibFails then
      ⟨false, { opened := false, content := none },
        [ApiCall.openClipboard, ApiCall.emptyClipboard,
          ApiCall.setDib (dib_data img), ApiCall.closeClipboard]⟩
    else
      ⟨true, { opened := false, content := none },
        [ApiCall.openClipboard, ApiCall.emptyClipboard,
          ApiCall.setDib (dib_data img), ApiCall.closeClipboard]⟩
  else ⟨false, st, []⟩

/-- ClipboardManager.save_image: normalize the input to a PIL image via
_convert_to_pil, return false on normalization failure with no further
call, else delegate to _save_image_windows; the whole body sits in a
try/except that converts any raise into false. -/
def save_image (env : Env) (e : ImgEnv) (st : ClipState)
    (input : ImageInput) : STResult :=
  match convert_to_pil e input with
  | none => ⟨false, st, []⟩
  | some img => save_image_windows env st img

/-- Per-manager teardown state: whether the _tk_root attribute holds a
truthy Tk object, and whether that window was already destroyed. The
source never clears _tk_root after destroying it, so a second close
reaches destroy again; that second destroy raises inside tkinter and the
bare except swallows the raise. -/
structure MgrState where
  tkRootSet : Bool
  tkDestroyed : Bool
  deriving DecidableEq

/-- ClipboardManager.close: successor teardown state, the number of
windows actually destroyed by this call, and whether an error escaped to
the caller, which the bare except around destroy makes impossible. -/
def close (s : MgrState) : MgrState × ℕ × Bool :=
  if s.tkRootSet then
    if s.tkDestroyed then (s, 0, false)
    else ({ s with tkDestroyed := true }, 1, false)
  else (s, 0, false)

/-- Manager instance for the module-level singleton model: an identity tag
and the availability and fault environment probed at its construction. -/
structure Manager where
  id : ℕ
  env : Env
  deriving DecidableEq

/-- Module function get_clipboard over the module global
_clipboard_instance: constructs an instance on the first call (the fresh
argument stands for the instance the expression ClipboardManager() would
build) and returns the stored instance ever after. -/
def get_clipboard (g : Option Manager) (fresh : Manager) :
    Manager × Option Manager :=
  match g with
  | none => (fresh, some fresh)
  | some m => (m, some m)

/-- Module convenience function copy_text: get_clipboard then save_text on
the returned instance; the result carries the Python return value, the id
of the serving manager, the new module global and the new clipboard
state. -/
def copy_text (fresh : Manager) (t : String) (g : Option Manager)
    (st : ClipState) : Bool × ℕ × Option Manager × ClipState :=
  let r := get_clipboard g fresh
  let s := save_text r.1.env st (PyVal.str t)
  (s.ok, r.1.id, r.2, s.state)

/-- Module convenience function paste_text: get_clipboard then get_text on
the returned instance. -/
def paste_text (fresh : Manager) (g : Option Manager) (st : ClipState) :
    Option String × ℕ × Option Manager × ClipState :=
  let r := get_clipboard g fresh
  let s := get_text r.1.env st
  (s.1, r.1.id, r.2, s.2.1)

/-- Module convenience function clear_clipboard: get_clipboard then clear
on the returned instance. -/
def clear_clipboard (fresh : Manager) (g : Option Manager) (st : ClipState) :
    Bool × ℕ × Option Manager × ClipState :=
  let r := get_clipboard g fresh
  let s := clear r.1.env st
  (s.ok, r.1.id, r.2, s.state)

/-- Module convenience function copy_image: get_clipboard then save_image
on the returned instance. -/
def copy_image (fresh : Manager) (e : ImgEnv) (input : ImageInput)
    (g : Option Manager) (st : ClipState) :
    Bool × ℕ × Option Manager × ClipState :=
  let r := get_clipboard g fresh
  let s := save_image r.1.env e st input
  (s.ok, r.1.id, r.2, s.state)

/-- Environment with nothing available and no fault armed; concrete
environments below are built from it. -/
def envNone : Env :=
  ⟨false, false, false, false, false, false, false, false, false, false,
    false, false⟩

/-- Clipboard not open, no text content. -/
def st0 : ClipState := ⟨false, none⟩

/-- Clipboard not open, holding a nonempty text. -/
def st1 : ClipState := ⟨false, some "x"⟩

/-- Native backend only, SetClipboardText raises. -/
def envSetTextFault : Env :=
  { envNone with hasWin32 := true, win32SetTextFails := true }

/-- Native backend only, EmptyClipboard raises. -/
def envEmptyFault : Env :=
  { envNone with hasWin32 := true, win32EmptyFails := true }

/-- Native backend only, GetClipboardData raises. -/
def envGetDataFault : Env :=
  { envNone with hasWin32 := true, win32GetDataFails := true }

/-- Native backend only, SetClipboardData with CF_DIB raises. -/
def envSetDibFault : Env :=
  { envNone with hasWin32 := true, win32SetDibFails := true }

/-- Only pyperclip available, no fault armed. -/
def envPyperOnly : Env := { envNone with hasPyperclip := true }

/-- Only the native win32 backend available, no fault armed. -/
def envWin32Only : Env := { envNone with hasWin32 := true }

/-- Only tkinter available, no fault armed. -/
def envTkOnly : Env := { envNone with hasTkinter := true }

/-- All three text backends available and the chosen one, pyperclip,
raises inside copy. -/
def envAllCopyFault : Env :=
  { envNone with
      hasPyperclip := true
      hasWin32 := true
      hasTkinter := true
      pyperclipCopyFails := true }

/-- Image environment whose external decoders always raise, running on
numpy 2.3. -/
def imgEnvNone : ImgEnv := ⟨(2, 3), fun _ => none, fun _ => none, fun _ => none⟩

/-- One black pixel. -/
def img1 : PILImage := ⟨1, 1, [[(0, 0, 0)]]⟩

/-- Black 100 by 100 RGB image. -/
def img100 : PILImage :=
  ⟨100, 100, List.replicate 100 (List.replicate 100 (0, 0, 0))⟩

/-- Raw float buffer with the single sample 300.7, dtype not uint8. -/
def npFloatArr : NpArray := ⟨false, [(300.7 : ℚ)]⟩

/-- Raw float buffer with the three samples of the claim, dtype not
uint8. -/
def demoArr : NpArray := ⟨false, [(300.7 : ℚ), (-5.2 : ℚ), (127.9 : ℚ)]⟩

/-- No armed fault on any call a text operation can issue. -/
def no_text_faults (env : Env) : Prop :=
  env.pyperclipCopyFails = false ∧ env.pyperclipPasteFails = false ∧
    env.win32OpenFails = false ∧ env.win32EmptyFails = false ∧
    env.win32SetTextFails = false ∧ env.win32GetDataFails = false ∧
    env.win32CloseFails = false ∧ env.tkFails = false

/-- Every call issued by the win32 branch of save_text goes through the
win32 library. -/
theorem save_text_win32_branch_backend (env : Env) (st : ClipState)
    (t : String) :
    ∀ c ∈ (save_text_win32 env st t).calls, call_backend c = Backend.win32 := by
  intro c hc
  have h : c = ApiCall.openClipboard ∨ c = ApiCall.emptyClipboard ∨
      c = ApiCall.setTextData t ∨ c = ApiCall.closeClipboard := by
    unfold save_text_win32 at hc
    split_ifs at hc <;> simp at hc <;> tauto
  rcases h with rfl | rfl | rfl | rfl <;> rfl

/-- Every call issued by the pyperclip branch of save_text goes through
pyperclip. -/
theorem save_text_pyperclip_branch_backend (env : Env) (st : ClipState)
    (t : String) :
    ∀ c ∈ (save_text_pyperclip env st t).calls,
      call_backend c = Backend.pyperclip := by
  intro c hc
  unfold save_text_pyperclip at hc
  split_ifs at hc <;> simp at hc <;> subst hc <;> rfl

/-- Every call issued by the tkinter branch of save_text goes through
tkinter. -/
theorem save_text_tkinter_branch_backend (env : Env) (st : ClipState)
    (t : String) :
    ∀ c ∈ (save_text_tkinter env st t).calls,
      call_backend c = Backend.tkinter := by
  intro c hc
  have h : c = ApiCall.tkClear ∨ c = ApiCall.tkAppend t ∨
      c = ApiCall.tkUpdate := by
    unfold save_text_tkinter at hc
    split_ifs at hc <;> simp at hc <;> tauto
  rcases h with rfl | rfl | rfl <;> rfl

/-- With any fault armed on its four calls, the win32 branch of save_text
reports failure. -/
theorem save_text_win32_branch_fault_not_ok (env : Env) (st : ClipState)
    (t : String)
    (h : (env.win32OpenFails || env.win32EmptyFails || env.win32SetTextFails
        || env.win32CloseFails) = true) :
    (save_text_win32 env st t).ok = false := by
  unfold save_text_win32
  cases ho : env.win32OpenFails <;> cases he : env.win32EmptyFails <;>
    cases hs : env.win32SetTextFails <;> cases hc : env.win32CloseFails <;>
    simp_all

/-- C1: the claim states that every operation opening the native clipboard
closes it on every exit path, including after a mid-sequence native
failure. The code satisfies this in get_text, which closes in a finally
block, and in _save_image_windows, whose except block retries the close,
but violates it in save_text and clear: their single try/except returns
false after a raise without closing, leaving the system-wide clipboard
lock held. This theorem evaluates the embedding at the failing inputs and
at the two conforming operations for contrast. -/
theorem save_text_and_clear_native_failure_leaves_clipboard_open :
    (save_text envSetTextFault st0 (PyVal.str "x")).ok = false ∧
    (save_text envSetTextFault st0 (PyVal.str "x")).state.opened = true ∧
    ApiCall.closeClipboard ∉ (save_text envSetTextFault st0 (PyVal.str "x")).calls ∧
    (clear envEmptyFault st0).ok = false ∧
    (clear envEmptyFault st0).state.opened = true ∧
    ApiCall.closeClipboard ∉ (clear envEmptyFault st0).calls ∧
    (get_text envGetDataFault st1).2.1.opened = false ∧
    ApiCall.closeClipboard ∈ (get_text envGetDataFault st1).2.2 ∧
    (save_image_windows envSetDibFault st0 img1).state.opened = false ∧
    ApiCall.closeClipboard ∈ (save_image_windows envSetDibFault st0 img1).calls := by
  decide

/-- C5: save_text given a non-text argument returns false before issuing
any backend call, leaving the clipboard state untouched. -/
theorem save_text_nonstring_rejected_without_backend_call :
    ∀ (env : Env) (st : ClipState),
      save_text env st PyVal.nonStr = ⟨false, st, []⟩ := by
  intro env st
  rfl

/-- C8: calling close twice destroys the tkinter window at most once in
total, the second call destroys nothing, and neither call surfaces an
error, every teardown raise being swallowed by the bare except. -/
theorem close_twice_idempotent_and_silent :
    ∀ s : MgrState,
      (close s).2.2 = false ∧
      (close (close s).1).2.2 = false ∧
      (close (close s).1).2.1 = 0 ∧
      (close s).2.1 + (close (close s).1).2.1 ≤ 1 := by
  intro s
  rcases s with ⟨r, d⟩
  cases r <;> cases d <;> decide

/-- C10: get_clipboard builds the manager lazily on its first call, every
later call returns the identical stored instance, and the convenience
functions copy_text, copy_image, paste_text and clear_clipboard each
operate on that same singleton instance. -/
theorem get_clipboard_singleton_and_helpers :
    ∀ (g : Option Manager) (fresh f2 f3 f4 : Manager) (t : String)
      (st : ClipState) (e : ImgEnv) (input : ImageInput),
      get_clipboard none fresh = (fresh, some fresh) ∧
      (∀ m : Manager, get_clipboard (some m) fresh = (m, some m)) ∧
      (get_clipboard (get_clipboard g fresh).2 f2).1
        = (get_clipboard g fresh).1 ∧
      (copy_text fresh t g st).2.1 = (get_clipboard g fresh).1.id ∧
      (paste_text f2 (copy_text fresh t g st).2.2.1 st).2.1
        = (get_clipboard g fresh).1.id ∧
      (clear_clipboard f3 (copy_text fresh t g st).2.2.1 st).2.1
        = (get_clipboard g fresh).1.id ∧
      (copy_image f4 e input (copy_text fresh t g st).2.2.1 st).2.1
        = (get_clipboard g fresh).1.id := by
  intro g fresh f2 f3 f4 t st e input
  cases g <;>
    simp [get_clipboard, copy_text, paste_text, clear_clipboard, copy_image]

/-- C4: save_text delegates every issued call to the single
highest-priority available backend in the fixed order pyperclip, win32,
tkinter; the selection is a pure function of the availability flags, which
no method mutates after construction, so the same backend serves every
call of the lifetime; when the chosen backend raises mid-operation the
call returns false and, by the first conjunct, no lower-priority backend
was attempted; with no backend available it returns false with no call. -/
theorem save_text_single_backend_no_fallback :
    ∀ (env : Env) (st : ClipState) (t : String),
      (∀ c ∈ (save_text env st (PyVal.str t)).calls,
        some (call_backend c) = select_text_backend env) ∧
      (chosen_fails env = true → (save_text env st (PyVal.str t)).ok = false) ∧
      (select_text_backend env = none →
        save_text env st (PyVal.str t) = ⟨false, st, []⟩) := by
  intro env st t
  cases hp : env.hasPyperclip with
  | true =>
    refine ⟨?_, ?_, ?_⟩
    · intro c hc
      have hb : call_backend c = Backend.pyperclip := by
        apply save_text_pyperclip_branch_backend env st t c
        simpa [save_text, hp] using hc
      simp [select_text_backend, hp, hb]
    · intro hf
      have hcf : env.pyperclipCopyFails = true := by
        simpa [chosen_fails, select_text_backend, hp] using hf
      simp [save_text, hp, save_text_pyperclip, hcf]
    · intro hn
      exfalso
      simp [select_text_backend, hp] at hn
  | false =>
    cases hw : env.hasWin32 with
    | true =>
      refine ⟨?_, ?_, ?_⟩
      · intro c hc
        have hb : call_backend c = Backend.win32 := by
          apply save_text_win32_branch_backend env st t c
          simpa [save_text, hp, hw] using hc
        simp [select_text_backend, hp, hw, hb]
      · intro hf
        have hor : (env.win32OpenFails || env.win32EmptyFails
            || env.win32SetTextFails || env.win32CloseFails) = true := by
          simpa [chosen_fails, select_text_backend, hp, hw] using hf
        have hok := save_text_win32_branch_fault_not_ok env st t hor
        simpa [save_text, hp, hw] using hok
      · intro hn
        exfalso
        simp [select_text_backend, hp, hw] at hn
    | false =>
      cases ht : env.hasTkinter with
      | true =>
        refine ⟨?_, ?_, ?_⟩
        · intro c hc
          have hb : call_backend c = Backend.tkinter := by
            apply save_text_tkinter_branch_backend env st t c
            simpa [save_text, hp, hw, ht] using hc
          simp [select_text_backend, hp, hw, ht, hb]
        · intro hf
          have htf : env.tkFails = true := by
            simpa [chosen_fails, select_text_backend, hp, hw, ht] using hf
          simp [save_text, hp, hw, ht, save_text_tkinter, htf]
        · intro hn
          exfalso
          simp [select_text_backend, hp, hw, ht] at hn
      | false =>
        refine ⟨?_, ?_, ?_⟩
        · intro c hc
          simp [save_text, hp, hw, ht] at hc
        · intro _
          simp [save_text, hp, hw, ht]
        · intro _
          simp [save_text, hp, hw, ht]

/-- Witness for C4: with all three backends available pyperclip is
selected, its copy call is the only call issued, and an armed fault on
that chosen backend makes the call fail instead of falling down the
chain. -/
theorem save_text_single_backend_no_fallback_witness :
    some (call_backend (ApiCall.pyperclipCopy "a"))
        = select_text_backend envAllCopyFault ∧
    (save_text envAllCopyFault st0 (PyVal.str "a")).ok = false := by
  constructor
  · exact (save_text_single_backend_no_fallback envAllCopyFault st0 "a").1
      (ApiCall.pyperclipCopy "a") (by decide)
  · exact (save_text_single_backend_no_fallback envAllCopyFault st0 "a").2.1
      (by decide)

/-- C3 counterexample: with pyperclip as the selected backend and a
clipboard holding no text, get_text returns the empty string that
pyperclip.paste produced, not the None result the claim requires for a
no-text clipboard, because the source returns paste() verbatim. -/
theorem get_text_pyperclip_no_text_returns_empty_string :
    (get_text envPyperOnly st0).1 = some "" ∧
    (get_text envPyperOnly st0).1 ≠ none := by
  decide

/-- C3 amended: get_text queries the highest-priority available backend;
through the native or tkinter backends a clipboard holding no text yields
None, distinct from the empty string, the native backend also mapping
empty text data to None, and with no backend available the result is None;
through pyperclip, however, the text the library returns is passed through
verbatim, so a no-text clipboard yields the empty string rather than
None. -/
theorem get_text_backend_results :
    ∀ (env : Env) (st : ClipState),
      (env.hasPyperclip = true → env.pyperclipPasteFails = false →
        (get_text env st).1 = some (st.content.getD "")) ∧
      (env.hasPyperclip = false → env.hasWin32 = true →
        (st.content = none ∨ st.content = some "") →
        (get_text env st).1 = none) ∧
      (env.hasPyperclip = false → env.hasWin32 = true →
        env.win32OpenFails = false → env.win32GetDataFails = false →
        ∀ d : String, st.content = some d → d ≠ "" →
        (get_text env st).1 = some d) ∧
      (env.hasPyperclip = false → env.hasWin32 = false →
        env.hasTkinter = true → (get_text env st).1 = st.content) ∧
      (env.hasPyperclip = false → env.hasWin32 = false →
        env.hasTkinter = false → (get_text env st).1 = none) := by
  intro env st
  refine ⟨?_, ?_, ?_, ?_, ?_⟩
  · intro hp hpf
    simp [get_text, hp, hpf]
  · intro hp hw hc
    rcases hc with hc | hc
    · cases ho : env.win32OpenFails
      · cases htk : env.hasTkinter <;> simp [get_text, hp, hw, ho, hc, htk]
      · simp [get_text, hp, hw, ho]
    · cases ho : env.win32OpenFails
      · cases hg : env.win32GetDataFails <;>
          simp [get_text, hp, hw, ho, hc, hg]
      · simp [get_text, hp, hw, ho]
  · intro hp hw ho hg d hd hne
    simp [get_text, hp, hw, ho, hg, hd, hne]
  · intro hp hw ht
    simp [get_text, hp, hw, ht]
  · intro hp hw ht
    simp [get_text, hp, hw, ht]

/-- Witness for C3 amended: through the native backend alone, a clipboard
holding no text makes get_text return None. -/
theorem get_text_backend_results_witness :
    (get_text envWin32Only st0).1 = none :=
  (get_text_backend_results envWin32Only st0).2.1 rfl rfl (Or.inl rfl)

/-- C9 counterexample: round-tripping the empty string through the native
backend fails: save_text succeeds, but get_text maps the stored empty text
to None through its expression str(data) if data else None, so the text
read back differs from the text saved even though the same backend served
both calls and nothing external intervened. -/
theorem roundtrip_empty_string_win32_returns_none :
    (save_text envWin32Only st0 (PyVal.str "")).ok = true ∧
    (get_text envWin32Only (save_text envWin32Only st0 (PyVal.str "")).state).1
      = none := by
  decide

/-- C9 amended: with the same backend serving both calls, no armed fault
and no external modification between the calls, save_text of t followed by
get_text returns t whenever the serving backend is pyperclip or tkinter,
and whenever the serving backend is the native one and t is nonempty; the
empty string through the native backend comes back as None. -/
theorem save_then_get_roundtrip :
    ∀ (env : Env) (st : ClipState) (t : String), no_text_faults env →
      (env.hasPyperclip = true →
        (get_text env (save_text env st (PyVal.str t)).state).1 = some t) ∧
      (env.hasPyperclip = false → env.hasWin32 = true → t ≠ "" →
        (get_text env (save_text env st (PyVal.str t)).state).1 = some t) ∧
      (env.hasPyperclip = false → env.hasWin32 = false →
        env.hasTkinter = true →
        (get_text env (save_text env st (PyVal.str t)).state).1 = some t) := by
  intro env st t hf
  obtain ⟨f1, f2, f3, f4, f5, f6, f7, f8⟩ := hf
  refine ⟨?_, ?_, ?_⟩
  · intro hp
    simp [save_text, save_text_pyperclip, get_text, hp, f1, f2]
  · intro hp hw hne
    simp [save_text, save_text_win32, get_text, hp, hw, f3, f4, f5, f6, f7,
      hne]
  · intro hp hw ht
    simp [save_text, save_text_tkinter, get_text, hp, hw, ht, f8]

/-- Witness for C9 amended: the pyperclip backend round-trips a concrete
nonempty text. -/
theorem save_then_get_roundtrip_witness :
    no_text_faults envPyperOnly ∧
    (get_text envPyperOnly
        (save_text envPyperOnly st0 (PyVal.str "hi")).state).1 = some "hi" := by
  refine ⟨⟨rfl, rfl, rfl, rfl, rfl, rfl, rfl, rfl⟩, ?_⟩
  exact (save_then_get_roundtrip envPyperOnly st0 "hi"
    ⟨rfl, rfl, rfl, rfl, rfl, rfl, rfl, rfl⟩).1 rfl

/-- C2 counterexample: at the numpy version the source documents running
on, 2.3, the ndarray branch of _convert_to_pil hands the float buffer to
Image.fromarray unconverted, so the sample 300.7 stays 300.7 instead of
becoming 255; the clip-then-truncate conversion is only reachable in the
numpy 1.x branch. -/
theorem numpy2_float_sample_passed_through :
    ndarray_to_samples (2, 3) npFloatArr = [(300.7 : ℚ)] ∧
    ndarray_to_samples (2, 3) npFloatArr ≠ [(255 : ℚ)] := by
  constructor
  · rfl
  · show ¬ ([(300.7 : ℚ)] = [(255 : ℚ)])
    norm_num

/-- C2 amended: only under a numpy 1.x runtime does save_image convert a
raw pixel buffer of non-uint8 element type; there each sample is clamped
to the inclusive range [0, 255] and then truncated toward zero, so 300.7
becomes 255, -5.2 becomes 0 and 127.9 becomes 127; under numpy 2.x the
buffer reaches Image.fromarray unconverted. -/
theorem numpy1_nonuint8_clip_then_truncate :
    ∀ (v : ℕ × ℕ) (a : NpArray), v.1 < 2 → a.dtypeIsUint8 = false →
      ndarray_to_samples v a
          = a.data.map (fun x => (np_clip_astype_uint8 x : ℚ)) ∧
      np_clip_astype_uint8 (300.7 : ℚ) = 255 ∧
      np_clip_astype_uint8 (-5.2 : ℚ) = 0 ∧
      np_clip_astype_uint8 (127.9 : ℚ) = 127 := by
  intro v a hv ha
  refine ⟨?_, ?_, ?_, ?_⟩
  · have hge : np_version_ge_2_0 v = false := by
      unfold np_version_ge_2_0
      simp
      omega
    simp [ndarray_to_samples, hge, ha]
  · unfold np_clip_astype_uint8
    rw [if_neg (by norm_num), if_pos (by norm_num)]
  · unfold np_clip_astype_uint8
    rw [if_pos (by norm_num)]
  · unfold np_clip_astype_uint8
    rw [if_neg (by norm_num), if_neg (by norm_num)]
    norm_num
    decide

/-- Witness for C2 amended: a numpy 1.x runtime converts the concrete
three-sample float buffer element-wise by the clip-then-truncate rule. -/
theorem numpy1_nonuint8_clip_then_truncate_witness :
    (1, 26).1 < 2 ∧
    ndarray_to_samples (1, 26) demoArr
        = demoArr.data.map (fun x => (np_clip_astype_uint8 x : ℚ)) :=
  ⟨by decide,
    (numpy1_nonuint8_clip_then_truncate (1, 26) demoArr (by decide) rfl).1⟩

/-- C6: save_image returns false and issues no OS clipboard call both when
normalization fails and when normalization succeeds but the native image
backend was not acquired; in the embedding every path returns a value, the
facade having caught every raise. -/
theorem save_image_failure_paths_make_no_os_call :
    ∀ (env : Env) (e : ImgEnv) (st : ClipState) (input : ImageInput),
      (convert_to_pil e input = none →
        save_image env e st input = ⟨false, st, []⟩) ∧
      (env.hasWin32 = false →
        (save_image env e st input).ok = false ∧
        (save_image env e st input).calls = []) := by
  intro env e st input
  constructor
  · intro h
    unfold save_image
    rw [h]
  · intro hw
    unfold save_image
    cases hcv : convert_to_pil e input with
    | none => simp
    | some img => simp [save_image_windows, hw]

/-- Witness for C6: an unsupported input type fails with no call, and a
valid PIL image on a manager without win32 fails with no call. -/
theorem save_image_failure_paths_make_no_os_call_witness :
    save_image envPyperOnly imgEnvNone st0 ImageInput.other
        = ⟨false, st0, []⟩ ∧
    (save_image envPyperOnly imgEnvNone st0 (ImageInput.pil img1)).ok
        = false ∧
    (save_image envPyperOnly imgEnvNone st0 (ImageInput.pil img1)).calls
        = [] := by
  refine ⟨?_, ?_, ?_⟩
  · exact (save_image_failure_paths_make_no_os_call envPyperOnly imgEnvNone
      st0 ImageInput.other).1 rfl
  · exact ((save_image_failure_paths_make_no_os_call envPyperOnly imgEnvNone
      st0 (ImageInput.pil img1)).2 rfl).1
  · exact ((save_image_failure_paths_make_no_os_call envPyperOnly imgEnvNone
      st0 (ImageInput.pil img1)).2 rfl).2

/-- Flattening the three-byte pixel encodings of a row yields three bytes
per pixel. -/
theorem bmp_flatten_triples_length (l : List (ℕ × ℕ × ℕ)) :
    ((l.map (fun p => [p.2.2 % 256, p.2.1 % 256, p.1 % 256])).flatten).length
      = 3 * l.length := by
  induction l with
  | nil => rfl
  | cons a tl ih =>
    simp only [List.map_cons, List.flatten_cons, List.length_append, ih,
      List.length_cons, List.length_nil]
    ring

/-- The aligned row size is at least the three bytes per pixel. -/
theorem bmp_row_size_ge (w : ℕ) : w * 3 ≤ bmp_row_size w := by
  unfold bmp_row_size
  omega

/-- A row of the declared width serializes to exactly the aligned row
size. -/
theorem bmp_encode_row_length (w : ℕ) (row : List (ℕ × ℕ × ℕ))
    (h : row.length = w) : (bmp_encode_row w row).length = bmp_row_size w := by
  unfold bmp_encode_row
  rw [List.length_append, bmp_flatten_triples_length, h,
    List.length_replicate]
  have := bmp_row_size_ge w
  omega

/-- Flattening a list of lists of one common length multiplies that length
by the number of lists. -/
theorem flatten_const_length (c : ℕ) : ∀ L : List (List ℕ),
    (∀ x ∈ L, x.length = c) → (L.flatten).length = c * L.length := by
  intro L
  induction L with
  | nil => intro _; rfl
  | cons a tl ih =>
    intro h
    have ha := h a (by simp)
    have htl := ih (fun x hx => h x (by simp [hx]))
    simp only [List.flatten_cons, List.length_append, ha, htl,
      List.length_cons]
    ring

/-- C7: on the fault-free native path, _save_image_windows writes to the
clipboard exactly the standard uncompressed 24-bit BMP serialization of
the image with its leading 14-byte file header stripped, and for an image
whose rows match its declared width and height that payload has length
equal to the uncompressed BMP file size minus 14. -/
theorem save_image_writes_headerless_bmp_payload :
    ∀ (env : Env) (st : ClipState) (img : PILImage),
      env.hasWin32 = true → env.win32OpenFails = false →
      env.win32EmptyFails = false →
      ApiCall.setDib ((bmp_encode img).drop 14)
          ∈ (save_image_windows env st img).calls ∧
      ((∀ row ∈ img.pixels, row.length = img.width) →
        img.pixels.length = img.height →
        (dib_data img).length = bmp_file_size img.width img.height - 14) := by
  intro env st img hw ho he
  constructor
  · unfold save_image_windows
    cases hs : env.win32SetDibFails <;> simp [hw, ho, he, hs, dib_data]
  · intro hrows hh
    have hfh : (bmp_file_header img.width img.height).length = 14 := rfl
    have hih : (bmp_info_header img.width img.height).length = 40 := rfl
    have hpix :
        ((img.pixels.reverse.map (bmp_encode_row img.width)).flatten).length
          = bmp_row_size img.width * (img.pixels.reverse.map
              (bmp_encode_row img.width)).length := by
      apply flatten_const_length
      intro x hx
      rcases List.mem_map.mp hx with ⟨row, hrow, rfl⟩
      exact bmp_encode_row_length _ _ (hrows row (List.mem_reverse.mp hrow))
    unfold dib_data bmp_encode
    rw [List.length_drop, List.length_append, List.length_append, hfh, hih,
      hpix, List.length_map, List.length_reverse, hh]
    unfold bmp_file_size
    omega

/-- Witness for C7: the 100 by 100 black image is written as the
header-less BMP payload and that payload has 30040 bytes, the uncompressed
100 by 100 24-bit BMP file size 30054 minus 14. -/
theorem save_image_writes_headerless_bmp_payload_witness :
    ApiCall.setDib ((bmp_encode img100).drop 14)
        ∈ (save_image_windows envWin32Only st0 img100).calls ∧
    (dib_data img100).length = 30040 := by
  have h := save_image_writes_headerless_bmp_payload envWin32Only st0 img100
    rfl rfl rfl
  have hrows : ∀ row ∈ img100.pixels, row.length = img100.width := by
    intro row hrow
    have hr := List.eq_of_mem_replicate hrow
    subst hr
    rfl
  have hh : img100.pixels.length = img100.height := rfl
  refine ⟨h.1, ?_⟩
  rw [h.2 hrows hh]
  decide

end ClipboardManager

